import Mathlib

/-!
Verification of the raffle state machine in `src/contracts/Lottery.sol`.

The contract is embedded shallowly:

* addresses are `Nat`, amounts and timestamps are `Nat`;
* contract storage is the structure `Lottery`; `address(this).balance` is the
  field `balance` (the pot: every successful `enterLottery` call adds
  `msg.value` to it, the payout in `fulfillRandomWords` sends all of it);
* each external function becomes a Lean function from the pre-state and the
  call arguments to `Except LotteryError result`; an `.error` value models a
  Solidity revert, so no state is committed on failure (the `…Tx` wrappers
  make this commit discipline explicit);
* environment inputs are extra arguments: `now` for `block.timestamp`,
  `newRequestId` for the id returned by `i_vrfCoordinator.requestRandomWords`,
  and `transferOk` for the success flag of the low-level payout `call`;
* an out-of-bounds array read or a modulo by zero, which revert with a
  Solidity 0.8 panic, become the error `Panic`.
-/

/-- `enum LotteryState { OPEN, CALCULATING }` from the contract. -/
inductive LotteryState where
  | OPEN
  | CALCULATING
deriving DecidableEq, Repr

/-- `uint256(s_lotteryState)`: the numeric value of the enum. -/
def LotteryState.toUint : LotteryState → Nat
  | .OPEN => 0
  | .CALCULATING => 1

/-- The contract storage of `Lottery`, together with the ether balance of the
contract (`address(this).balance`). Chainlink pass-through configuration
(`i_gasLane`, `i_subscriptionId`, `i_callbackGasLimit`, coordinator address)
is omitted: it is never read by the state machine logic. -/
structure Lottery where
  i_entranceFee : Nat
  s_players : List Nat
  s_recentWinner : Nat
  s_lotteryState : LotteryState
  s_lastTimestamp : Nat
  i_interval : Nat
  balance : Nat
deriving DecidableEq, Repr

/-- The revert reasons of the contract, plus `Panic` for the Solidity 0.8
checked-arithmetic / out-of-bounds reverts. `UpkeepNotNeeded` carries
`(address(this).balance, s_players.length, uint256(s_lotteryState))`. -/
inductive LotteryError where
  | NotEnoughETHEntered
  | TransferFailed
  | NotOpen
  | UpkeepNotNeeded (currentBalance : Nat) (numPlayers : Nat) (lotteryState : Nat)
  | Panic
deriving DecidableEq, Repr

/-- The constructor: `s_lotteryState = OPEN`, `s_lastTimestamp = block.timestamp`,
empty player list, default (zero) recent winner, zero balance. -/
def initLottery (entranceFee interval deployTime : Nat) : Lottery :=
  { i_entranceFee := entranceFee
    s_players := []
    s_recentWinner := 0
    s_lotteryState := .OPEN
    s_lastTimestamp := deployTime
    i_interval := interval
    balance := 0 }

/-- `enterLottery()`: revert `NotEnoughETHEntered` when `msg.value < i_entranceFee`,
then revert `NotOpen` when the state is not `OPEN`, otherwise push the sender
onto `s_players` (the ether transfer of `msg.value` into the contract is part
of the same transaction, so the balance grows exactly on success). -/
def enterLottery (s : Lottery) (msgValue msgSender : Nat) : Except LotteryError Lottery :=
  if msgValue < s.i_entranceFee then
    .error .NotEnoughETHEntered
  else if s.s_lotteryState ≠ LotteryState.OPEN then
    .error .NotOpen
  else
    .ok { s with
      s_players := s.s_players ++ [msgSender]
      balance := s.balance + msgValue }

/-- `checkUpkeep`: `isOpen && timePassed && hasPlayers && hasBalance`, where
`timePassed = (block.timestamp - s_lastTimestamp) > i_interval`. -/
def checkUpkeep (s : Lottery) (now : Nat) : Bool :=
  (LotteryState.OPEN == s.s_lotteryState)
    && (now - s.s_lastTimestamp > s.i_interval)
    && (s.s_players.length > 0)
    && (s.balance > 0)

/-- `performUpkeep`: re-evaluate `checkUpkeep`; revert
`UpkeepNotNeeded(balance, players.length, uint256(state))` when false;
otherwise set the state to `CALCULATING` and call
`i_vrfCoordinator.requestRandomWords` once. The returned list is the sequence
of randomness requests issued during the call, each element the request id the
coordinator answered with (`newRequestId` models that returned id). -/
def performUpkeep (s : Lottery) (now newRequestId : Nat) :
    Except LotteryError (Lottery × List Nat) :=
  if ¬ checkUpkeep s now then
    .error (.UpkeepNotNeeded s.balance s.s_players.length s.s_lotteryState.toUint)
  else
    .ok ({ s with s_lotteryState := .CALCULATING }, [newRequestId])

/-- `fulfillRandomWords(requestId, _randomWords)`: the `requestId` parameter is
unnamed and unused in the source. `_randomWords[0]` panics when the array is
empty; `% s_players.length` panics when there are no players. Otherwise the
winner is `s_players[_randomWords[0] % s_players.length]`; the whole balance is
sent to the winner by a low-level call whose success flag is `transferOk`; on
failure the call reverts with `TransferFailed` (undoing the `s_recentWinner`
write); on success the state reopens, the players are cleared and
`s_lastTimestamp` becomes `block.timestamp`. The result carries the new
storage, the winner address and the amount paid out. -/
def fulfillRandomWords (s : Lottery) (_requestId : Nat) (randomWords : List Nat)
    (now : Nat) (transferOk : Bool) : Except LotteryError (Lottery × Nat × Nat) :=
  match randomWords with
  | [] => .error .Panic
  | w :: _ =>
    if s.s_players.length = 0 then
      .error .Panic
    else
      let indexOfWinner := w % s.s_players.length
      let recentWinner := s.s_players.getD indexOfWinner 0
      if ¬ transferOk then
        .error .TransferFailed
      else
        .ok ({ s with
          s_recentWinner := recentWinner
          s_lotteryState := .OPEN
          s_players := []
          s_lastTimestamp := now
          balance := 0 }, recentWinner, s.balance)

/-- The storage committed by an `enterLottery` transaction: the new storage on
success, the unchanged pre-state on revert. -/
def enterTx (s : Lottery) (msgValue msgSender : Nat) : Lottery :=
  match enterLottery s msgValue msgSender with
  | .ok s2 => s2
  | .error _ => s

/-- The storage committed by a `performUpkeep` transaction. -/
def performUpkeepTx (s : Lottery) (now newRequestId : Nat) : Lottery :=
  match performUpkeep s now newRequestId with
  | .ok (s2, _) => s2
  | .error _ => s

/-- The storage committed by a `fulfillRandomWords` transaction. -/
def fulfillTx (s : Lottery) (requestId : Nat) (randomWords : List Nat)
    (now : Nat) (transferOk : Bool) : Lottery :=
  match fulfillRandomWords s requestId randomWords now transferOk with
  | .ok (s2, _, _) => s2
  | .error _ => s

/-! ## Helper lemmas -/

/-- Unfolding of the upkeep gate into its four propositional conditions. -/
lemma checkUpkeep_eq_true (s : Lottery) (now : Nat) :
    checkUpkeep s now = true ↔
      (s.s_lotteryState = LotteryState.OPEN ∧ now - s.s_lastTimestamp > s.i_interval ∧
        s.s_players ≠ [] ∧ s.balance > 0) := by
  simp only [checkUpkeep, Bool.and_eq_true, beq_iff_eq, decide_eq_true_eq]
  constructor
  · rintro ⟨⟨⟨h1, h2⟩, h3⟩, h4⟩
    exact ⟨h1.symm, h2, by simpa using List.length_pos.mp h3, h4⟩
  · rintro ⟨h1, h2, h3, h4⟩
    exact ⟨⟨⟨h1.symm, h2⟩, List.length_pos.mpr h3⟩, h4⟩

/-- A successful `enterLottery` call names its pre-conditions and result. -/
lemma enterLottery_ok (s : Lottery) (v a : Nat) (s2 : Lottery)
    (h : enterLottery s v a = .ok s2) :
    ¬ v < s.i_entranceFee ∧ s.s_lotteryState = LotteryState.OPEN ∧
      s2 = { s with s_players := s.s_players ++ [a], balance := s.balance + v } := by
  by_cases h1 : v < s.i_entranceFee
  · simp [enterLottery, h1] at h
  · by_cases h2 : s.s_lotteryState = LotteryState.OPEN
    · refine ⟨h1, h2, ?_⟩
      simpa [enterLottery, h1, h2] using h.symm
    · simp [enterLottery, h1, h2] at h

/-- A successful `fulfillRandomWords` call names its pre-conditions and result. -/
lemma fulfillRandomWords_ok (s : Lottery) (rid : Nat) (vals : List Nat)
    (now : Nat) (tOk : Bool) (s2 : Lottery) (winner payout : Nat)
    (h : fulfillRandomWords s rid vals now tOk = .ok (s2, winner, payout)) :
    ∃ w ws, vals = w :: ws ∧ s.s_players.length ≠ 0 ∧ tOk = true ∧
      winner = s.s_players.getD (w % s.s_players.length) 0 ∧ payout = s.balance ∧
      s2 = { s with
        s_recentWinner := winner
        s_lotteryState := LotteryState.OPEN
        s_players := []
        s_lastTimestamp := now
        balance := 0 } := by
  match vals with
  | [] => simp [fulfillRandomWords] at h
  | w :: ws =>
    by_cases hlen : s.s_players.length = 0
    · simp [fulfillRandomWords, hlen] at h
    · cases tOk with
      | false => simp [fulfillRandomWords, hlen] at h
      | true =>
        refine ⟨w, ws, rfl, hlen, rfl, ?_⟩
        simp only [fulfillRandomWords, hlen, if_false, Bool.not_true, ite_false] at h
        obtain ⟨hs2, hw, hp⟩ := by
          simpa using h
        refine ⟨?_, hp.symm, by rw [← hs2, hw]⟩
        rw [List.getD_eq_getElem?_getD]
        exact hw.symm

/-! ## Claim theorems -/

/-- C5: `checkUpkeep` returns true iff the state is OPEN, strictly more than
`i_interval` time has passed since `s_lastTimestamp`, the player list is
non-empty and the balance (the pot) is positive; in particular it is false
whenever the player list is empty. -/
theorem checkUpkeep_iff_four_conditions (s : Lottery) (now : Nat) :
    (checkUpkeep s now = true ↔
      (s.s_lotteryState = LotteryState.OPEN ∧ now - s.s_lastTimestamp > s.i_interval ∧
        s.s_players ≠ [] ∧ s.balance > 0)) ∧
    (s.s_players = [] → checkUpkeep s now = false) := by
  refine ⟨checkUpkeep_eq_true s now, fun hp => ?_⟩
  cases hck : checkUpkeep s now with
  | false => rfl
  | true => exact absurd ((checkUpkeep_eq_true s now).mp hck).2.2.1 (by simp [hp])

/-- C5 witness: on a concrete state with no players but enough elapsed time and
a positive balance, the gate evaluates to false, and the equivalence holds. -/
theorem checkUpkeep_iff_four_conditions_witness :
    (checkUpkeep (Lottery.mk 1 [] 0 .OPEN 0 30 5) 31 = true ↔
      ((Lottery.mk 1 [] 0 .OPEN 0 30 5).s_lotteryState = LotteryState.OPEN ∧
        31 - (Lottery.mk 1 [] 0 .OPEN 0 30 5).s_lastTimestamp
            > (Lottery.mk 1 [] 0 .OPEN 0 30 5).i_interval ∧
        (Lottery.mk 1 [] 0 .OPEN 0 30 5).s_players ≠ [] ∧
        (Lottery.mk 1 [] 0 .OPEN 0 30 5).balance > 0)) ∧
    ((Lottery.mk 1 [] 0 .OPEN 0 30 5).s_players = [] →
      checkUpkeep (Lottery.mk 1 [] 0 .OPEN 0 30 5) 31 = false) :=
  checkUpkeep_iff_four_conditions (Lottery.mk 1 [] 0 .OPEN 0 30 5) 31

/-- C7: `enterLottery` with a payment strictly below the entrance fee reverts
with `NotEnoughETHEntered` in every state (the payment check precedes the
open-state check), and the committed storage is the unchanged pre-state. -/
theorem enter_underpaid_always_rejected (s : Lottery) (v a : Nat)
    (hv : v < s.i_entranceFee) :
    enterLottery s v a = .error .NotEnoughETHEntered ∧ enterTx s v a = s := by
  refine ⟨by simp [enterLottery, hv], ?_⟩
  simp [enterTx, enterLottery, hv]

/-- C7 witness: underpaying while the lottery is CALCULATING still yields
`NotEnoughETHEntered` (not `NotOpen`), with no state change. -/
theorem enter_underpaid_always_rejected_witness :
    (1 < (Lottery.mk 2 [9] 0 .CALCULATING 0 30 2).i_entranceFee) ∧
    (enterLottery (Lottery.mk 2 [9] 0 .CALCULATING 0 30 2) 1 7
        = .error .NotEnoughETHEntered ∧
      enterTx (Lottery.mk 2 [9] 0 .CALCULATING 0 30 2) 1 7
        = Lottery.mk 2 [9] 0 .CALCULATING 0 30 2) :=
  ⟨by decide, enter_underpaid_always_rejected (Lottery.mk 2 [9] 0 .CALCULATING 0 30 2) 1 7
    (by decide)⟩

/-- C9: `fulfillRandomWords` never reads its `requestId` argument, so two calls
from the same pre-state with the same random words, clock and transfer outcome
but different request ids return identical results and commit identical
storage. -/
theorem fulfill_result_independent_of_requestId (s : Lottery) (r1 r2 : Nat)
    (vals : List Nat) (now : Nat) (tOk : Bool) :
    fulfillRandomWords s r1 vals now tOk = fulfillRandomWords s r2 vals now tOk ∧
    fulfillTx s r1 vals now tOk = fulfillTx s r2 vals now tOk :=
  ⟨rfl, rfl⟩

/-- C10: a successful `enterLottery` call appends the sender to `s_players` and
adds the payment to the balance (the pot), and changes nothing else: the state,
timestamps, recent winner, entrance fee and interval are all preserved. -/
theorem enter_frame_only_players_and_pot (s : Lottery) (v a : Nat) (s2 : Lottery)
    (h : enterLottery s v a = .ok s2) :
    s2.s_players = s.s_players ++ [a] ∧ s2.balance = s.balance + v ∧
    s2.s_lotteryState = s.s_lotteryState ∧ s2.s_lastTimestamp = s.s_lastTimestamp ∧
    s2.s_recentWinner = s.s_recentWinner ∧ s2.i_entranceFee = s.i_entranceFee ∧
    s2.i_interval = s.i_interval := by
  obtain ⟨-, -, hs2⟩ := enterLottery_ok s v a s2 h
  subst hs2
  exact ⟨rfl, rfl, rfl, rfl, rfl, rfl, rfl⟩

/-- C10 witness: a concrete successful entry appends the sender, grows the pot
by the payment, and leaves every other component unchanged. -/
theorem enter_frame_only_players_and_pot_witness :
    (Lottery.mk 1 [4, 6] 2 .OPEN 9 30 2).s_players
        = (Lottery.mk 1 [4] 2 .OPEN 9 30 1).s_players ++ [6] ∧
    (Lottery.mk 1 [4, 6] 2 .OPEN 9 30 2).balance
        = (Lottery.mk 1 [4] 2 .OPEN 9 30 1).balance + 1 ∧
    (Lottery.mk 1 [4, 6] 2 .OPEN 9 30 2).s_lotteryState
        = (Lottery.mk 1 [4] 2 .OPEN 9 30 1).s_lotteryState ∧
    (Lottery.mk 1 [4, 6] 2 .OPEN 9 30 2).s_lastTimestamp
        = (Lottery.mk 1 [4] 2 .OPEN 9 30 1).s_lastTimestamp ∧
    (Lottery.mk 1 [4, 6] 2 .OPEN 9 30 2).s_recentWinner
        = (Lottery.mk 1 [4] 2 .OPEN 9 30 1).s_recentWinner ∧
    (Lottery.mk 1 [4, 6] 2 .OPEN 9 30 2).i_entranceFee
        = (Lottery.mk 1 [4] 2 .OPEN 9 30 1).i_entranceFee ∧
    (Lottery.mk 1 [4, 6] 2 .OPEN 9 30 2).i_interval
        = (Lottery.mk 1 [4] 2 .OPEN 9 30 1).i_interval :=
  enter_frame_only_players_and_pot (Lottery.mk 1 [4] 2 .OPEN 9 30 1) 1 6
    (Lottery.mk 1 [4, 6] 2 .OPEN 9 30 2) rfl

/-- C1: every successful fulfillment with non-empty random words and a
non-empty player list pays the winner `s_players[randomWords[0] % length]`
the full balance (the whole accumulated pot). -/
theorem fulfill_winner_is_modulo_index (s : Lottery) (rid : Nat) (vals : List Nat)
    (now : Nat) (s2 : Lottery) (winner payout : Nat)
    (hv : vals ≠ []) (hp : s.s_players ≠ [])
    (h : fulfillRandomWords s rid vals now true = .ok (s2, winner, payout)) :
    winner = s.s_players.getD (vals.headI % s.s_players.length) 0 ∧
    payout = s.balance := by
  obtain ⟨w, ws, hvals, -, -, hw, hpay, -⟩ :=
    fulfillRandomWords_ok s rid vals now true s2 winner payout h
  subst hvals
  exact ⟨hw, hpay⟩

/-- C1 witness: four players who each paid the entrance fee 1 (pot 4) and
random value 42: the winner is `players[42 % 4] = players[2] = 12` and the
payout is the entire pot `4 = 4 * entranceFee`. -/
theorem fulfill_winner_is_modulo_index_witness :
    ([42] : List Nat) ≠ [] ∧
    (Lottery.mk 1 [10, 11, 12, 13] 0 .CALCULATING 0 30 4).s_players ≠ [] ∧
    (12 = (Lottery.mk 1 [10, 11, 12, 13] 0 .CALCULATING 0 30 4).s_players.getD
        (([42] : List Nat).headI
          % (Lottery.mk 1 [10, 11, 12, 13] 0 .CALCULATING 0 30 4).s_players.length) 0 ∧
      4 = (Lottery.mk 1 [10, 11, 12, 13] 0 .CALCULATING 0 30 4).balance) :=
  ⟨by decide, by decide,
    fulfill_winner_is_modulo_index (Lottery.mk 1 [10, 11, 12, 13] 0 .CALCULATING 0 30 4)
      7 [42] 31 (Lottery.mk 1 [] 12 .OPEN 31 30 0) 12 4 (by decide) (by decide) rfl⟩

/-- C2: after every successful fulfillment the committed storage records the
winner in `s_recentWinner`, has an empty player list, a zero balance (pot),
`s_lastTimestamp = now` and state OPEN. (The contract keeps no pending request
id at all, so no pending id is present after the call either.) -/
theorem fulfill_success_post_state (s : Lottery) (rid : Nat) (vals : List Nat)
    (now : Nat) (s2 : Lottery) (winner payout : Nat)
    (h : fulfillRandomWords s rid vals now true = .ok (s2, winner, payout)) :
    s2.s_recentWinner = winner ∧ s2.s_players = [] ∧ s2.balance = 0 ∧
    s2.s_lastTimestamp = now ∧ s2.s_lotteryState = LotteryState.OPEN := by
  obtain ⟨w, ws, -, -, -, -, -, hs2⟩ :=
    fulfillRandomWords_ok s rid vals now true s2 winner payout h
  subst hs2
  exact ⟨rfl, rfl, rfl, rfl, rfl⟩

/-- C2 witness: a concrete successful settlement resets the storage as stated. -/
theorem fulfill_success_post_state_witness :
    (Lottery.mk 1 [] 10 .OPEN 31 30 0).s_recentWinner = 10 ∧
    (Lottery.mk 1 [] 10 .OPEN 31 30 0).s_players = [] ∧
    (Lottery.mk 1 [] 10 .OPEN 31 30 0).balance = 0 ∧
    (Lottery.mk 1 [] 10 .OPEN 31 30 0).s_lastTimestamp = 31 ∧
    (Lottery.mk 1 [] 10 .OPEN 31 30 0).s_lotteryState = LotteryState.OPEN :=
  fulfill_success_post_state (Lottery.mk 1 [10] 0 .CALCULATING 0 30 1) 5 [7] 31
    (Lottery.mk 1 [] 10 .OPEN 31 30 0) 10 1 rfl

/-- C3: when the payout transfer fails, the whole fulfillment reverts with
`TransferFailed` and the committed storage is exactly the pre-state: the state
stays as it was (CALCULATING in the reachable case), the pot is retained and
players, recent winner and timestamp are untouched. -/
theorem fulfill_transfer_failure_reverts (s : Lottery) (rid w : Nat) (ws : List Nat)
    (now : Nat) (hp : s.s_players ≠ []) :
    fulfillRandomWords s rid (w :: ws) now false = .error .TransferFailed ∧
    fulfillTx s rid (w :: ws) now false = s := by
  have hlen : s.s_players.length ≠ 0 := fun h0 => hp (List.length_eq_zero.mp h0)
  refine ⟨by simp [fulfillRandomWords, hlen], ?_⟩
  simp [fulfillTx, fulfillRandomWords, hlen]

/-- C3 witness: a concrete failing payout leaves the CALCULATING pre-state
fully intact and surfaces `TransferFailed`. -/
theorem fulfill_transfer_failure_reverts_witness :
    (Lottery.mk 1 [10] 0 .CALCULATING 5 30 1).s_players ≠ [] ∧
    (fulfillRandomWords (Lottery.mk 1 [10] 0 .CALCULATING 5 30 1) 5 [7] 31 false
        = .error .TransferFailed ∧
      fulfillTx (Lottery.mk 1 [10] 0 .CALCULATING 5 30 1) 5 [7] 31 false
        = Lottery.mk 1 [10] 0 .CALCULATING 5 30 1) :=
  ⟨by decide,
    fulfill_transfer_failure_reverts (Lottery.mk 1 [10] 0 .CALCULATING 5 30 1) 5 7 [] 31
      (by decide)⟩

/-- A successful `performUpkeep` call names its pre-condition and result. -/
lemma performUpkeep_ok (s : Lottery) (now rid : Nat) (s2 : Lottery) (reqs : List Nat)
    (h : performUpkeep s now rid = .ok (s2, reqs)) :
    checkUpkeep s now = true ∧
      s2 = { s with s_lotteryState := LotteryState.CALCULATING } ∧ reqs = [rid] := by
  by_cases hck : checkUpkeep s now
  · refine ⟨hck, ?_⟩
    simp [performUpkeep, hck] at h
    exact ⟨h.1.symm, h.2.symm⟩
  · simp [performUpkeep, hck] at h

/-- C4 counterexample: a CALCULATING storage for which no randomness request
was ever recorded, called with the arbitrary request id 999: the fulfillment
succeeds and commits a changed storage instead of rejecting the unknown id. -/
theorem fulfill_unknown_id_accepted_counterexample :
    fulfillRandomWords (Lottery.mk 1 [10] 0 .CALCULATING 0 30 1) 999 [7] 31 true
        = .ok (Lottery.mk 1 [] 10 .OPEN 31 30 0, 10, 1) ∧
    fulfillTx (Lottery.mk 1 [10] 0 .CALCULATING 0 30 1) 999 [7] 31 true
        ≠ Lottery.mk 1 [10] 0 .CALCULATING 0 30 1 :=
  ⟨rfl, by decide⟩

/-- C4 amended: `fulfillRandomWords` performs no request-id validation — the
contract stores no pending request id and ignores the id argument — so every
request id (never-issued and already-consumed ids alike) is accepted, and the
call proceeds to winner selection, succeeding whenever the player list is
non-empty, the word list is non-empty and the payout transfer succeeds.
Unknown-id rejection happens only in the external VRF coordinator. -/
theorem fulfill_accepts_every_requestId (s : Lottery) (rid w : Nat) (ws : List Nat)
    (now : Nat) (hp : s.s_players ≠ []) :
    ∃ s2 winner payout,
      fulfillRandomWords s rid (w :: ws) now true = .ok (s2, winner, payout) := by
  have hlen : s.s_players.length ≠ 0 := fun h0 => hp (List.length_eq_zero.mp h0)
  refine ⟨{ s with
      s_recentWinner := s.s_players.getD (w % s.s_players.length) 0
      s_lotteryState := .OPEN
      s_players := []
      s_lastTimestamp := now
      balance := 0 },
    s.s_players.getD (w % s.s_players.length) 0, s.balance, ?_⟩
  simp [fulfillRandomWords, hlen]

/-- C4 amended witness: a never-issued id is accepted on a concrete storage. -/
theorem fulfill_accepts_every_requestId_witness :
    (Lottery.mk 1 [10] 0 .CALCULATING 0 30 1).s_players ≠ [] ∧
    ∃ s2 winner payout,
      fulfillRandomWords (Lottery.mk 1 [10] 0 .CALCULATING 0 30 1) 123456 [7] 31 true
        = .ok (s2, winner, payout) :=
  ⟨by decide,
    fulfill_accepts_every_requestId (Lottery.mk 1 [10] 0 .CALCULATING 0 30 1)
      123456 7 [] 31 (by decide)⟩

/-- C6: `performUpkeep` re-evaluates the gate itself: when the gate is false it
reverts with `UpkeepNotNeeded` carrying the balance (pot), player count and
numeric state, and commits no change; when the gate is true it succeeds, sets
the state to CALCULATING and issues exactly one randomness request. -/
theorem performUpkeep_gate_dichotomy (s : Lottery) (now rid : Nat) :
    (checkUpkeep s now = false →
      performUpkeep s now rid
          = .error (.UpkeepNotNeeded s.balance s.s_players.length s.s_lotteryState.toUint) ∧
        performUpkeepTx s now rid = s) ∧
    (checkUpkeep s now = true →
      ∃ s2 reqs, performUpkeep s now rid = .ok (s2, reqs) ∧
        s2.s_lotteryState = LotteryState.CALCULATING ∧ reqs.length = 1) := by
  constructor
  · intro hck
    refine ⟨by simp [performUpkeep, hck], ?_⟩
    simp [performUpkeepTx, performUpkeep, hck]
  · intro hck
    exact ⟨{ s with s_lotteryState := .CALCULATING }, [rid],
      by simp [performUpkeep, hck], rfl, rfl⟩

/-- C6 witness: with no players the gate fails and the call reverts with the
diagnostic triple and no state change; with a player, elapsed time and a
positive pot, the call flips to CALCULATING and issues one request. -/
theorem performUpkeep_gate_dichotomy_witness :
    (performUpkeep (Lottery.mk 1 [] 0 .OPEN 0 30 0) 31 9
        = .error (.UpkeepNotNeeded 0 0 0) ∧
      performUpkeepTx (Lottery.mk 1 [] 0 .OPEN 0 30 0) 31 9
        = Lottery.mk 1 [] 0 .OPEN 0 30 0) ∧
    (∃ s2 reqs,
      performUpkeep (Lottery.mk 1 [5] 0 .OPEN 0 30 1) 31 9 = .ok (s2, reqs) ∧
        s2.s_lotteryState = LotteryState.CALCULATING ∧ reqs.length = 1) :=
  ⟨(performUpkeep_gate_dichotomy (Lottery.mk 1 [] 0 .OPEN 0 30 0) 31 9).1 (by decide),
    (performUpkeep_gate_dichotomy (Lottery.mk 1 [5] 0 .OPEN 0 30 1) 31 9).2 (by decide)⟩

/-- One committed transition of the contract: a successful entry, a successful
draw request or a successful fulfillment. A reverted call commits no storage
change, so it does not move the state machine. -/
inductive LotteryStep (s : Lottery) : Lottery → Prop where
  | enter (v a : Nat) (s2 : Lottery) (h : enterLottery s v a = .ok s2) : LotteryStep s s2
  | drawRequest (now rid : Nat) (s2 : Lottery) (reqs : List Nat)
      (h : performUpkeep s now rid = .ok (s2, reqs)) : LotteryStep s s2
  | settle (rid : Nat) (vals : List Nat) (now : Nat) (tOk : Bool) (s2 : Lottery)
      (winner payout : Nat)
      (h : fulfillRandomWords s rid vals now tOk = .ok (s2, winner, payout)) :
      LotteryStep s s2

/-- Storages reachable from a freshly constructed contract by committed
transitions. -/
inductive ReachableLottery (fee interval t0 : Nat) : Lottery → Prop where
  | init : ReachableLottery fee interval t0 (initLottery fee interval t0)
  | step (s s2 : Lottery) (hs : ReachableLottery fee interval t0 s)
      (h : LotteryStep s s2) : ReachableLottery fee interval t0 s2

/-- C8: in every reachable storage, CALCULATING implies a non-empty player
list, so the modulo in the winner selection is never taken by zero. -/
theorem calculating_implies_players_nonempty (fee interval t0 : Nat) (s : Lottery)
    (hr : ReachableLottery fee interval t0 s)
    (hc : s.s_lotteryState = LotteryState.CALCULATING) :
    s.s_players ≠ [] := by
  revert hc
  induction hr with
  | init =>
    intro hc
    simp [initLottery] at hc
  | step s1 s2 hs1 hstep ih =>
    intro hc
    cases hstep with
    | enter v a s2x he =>
      obtain ⟨-, hopen, hs2⟩ := enterLottery_ok s1 v a _ he
      subst hs2
      simp [hopen] at hc
    | drawRequest now rid s2x reqs he =>
      obtain ⟨hck, hs2, -⟩ := performUpkeep_ok s1 now rid _ _ he
      subst hs2
      exact ((checkUpkeep_eq_true s1 now).mp hck).2.2.1
    | settle rid vals now tOk s2x winner payout he =>
      obtain ⟨w, ws, -, -, -, -, -, hs2⟩ :=
        fulfillRandomWords_ok s1 rid vals now tOk _ winner payout he
      subst hs2
      simp at hc

/-- C8 witness: a concrete CALCULATING storage reached by construction, one
entry and one draw request has a non-empty player list. -/
theorem calculating_implies_players_nonempty_witness :
    (Lottery.mk 1 [5] 0 .CALCULATING 0 30 1).s_players ≠ [] := by
  have h0 : ReachableLottery 1 30 0 (initLottery 1 30 0) := .init
  have h1 : ReachableLottery 1 30 0 (Lottery.mk 1 [5] 0 .OPEN 0 30 1) :=
    .step _ _ h0 (.enter 1 5 _ rfl)
  have h2 : ReachableLottery 1 30 0 (Lottery.mk 1 [5] 0 .CALCULATING 0 30 1) :=
    .step _ _ h1 (.drawRequest 31 9 _ [9] rfl)
  exact calculating_implies_players_nonempty 1 30 0 _ h2 rfl
